import Mathlib

/-
Verification development for the e-commerce scraping program (app/parse.py).

The page surface and Selenium DOM handles are embedded shallowly:
an item container (`.thumbnail` card) is a `Card` record holding exactly the
data the parser reads from it, numeric text is parsed into exact rationals
and integers, and Selenium exceptions become `Except` errors.
-/

namespace Scrape

/-- Models Python's str.strip: removes leading and trailing whitespace. -/
def pyStrip (s : String) : String :=
  String.mk (((s.data.dropWhile Char.isWhitespace).reverse.dropWhile Char.isWhitespace).reverse)

/-- Models the source's price_text.replace of the currency symbol with the
empty string: every occurrence of the dollar sign is removed. -/
def removeDollar (s : String) : String :=
  String.mk (s.data.filter (fun c => c != '$'))

/-- Strips only a leading currency symbol. Modelled from the spec wording
"strip a leading currency symbol"; used to compare the spec's reading of the
price rule with the source's remove-all behaviour. -/
def stripLeadingDollar (s : String) : String :=
  match s.data with
  | [] => s
  | c :: rest => if c = '$' then String.mk rest else s

/-- Numeric value of a string of decimal digit characters. -/
def digitsToNat (cs : List Char) : Nat :=
  cs.foldl (fun a c => 10 * a + (c.toNat - 48)) 0

/-- Splits an optional leading sign off a character list; the first component
is true when the sign was a minus. -/
def splitSign (cs : List Char) : Bool × List Char :=
  match cs with
  | [] => (false, [])
  | c :: rest =>
    if c = '-' then (true, rest)
    else if c = '+' then (false, rest)
    else (false, cs)

/-- Models Python's float() on the decimal literals the scraper meets:
an optional sign, then digits with an optional fractional part (at least one
digit overall). Non-numeric text gives none, as float() raises ValueError. -/
def parsePyFloat (s : String) : Option ℚ :=
  let (neg, body) := splitSign s.data
  let intPart := body.takeWhile (fun c => c != '.')
  let mag : Option ℚ :=
    match body.dropWhile (fun c => c != '.') with
    | [] =>
      if !intPart.isEmpty && intPart.all Char.isDigit then
        some (digitsToNat intPart)
      else none
    | _ :: frac =>
      if (!intPart.isEmpty || !frac.isEmpty) && intPart.all Char.isDigit
          && frac.all Char.isDigit && frac.all (fun c => c != '.') then
        some ((digitsToNat intPart : ℚ) + (digitsToNat frac : ℚ) / (10 : ℚ) ^ frac.length)
      else none
  mag.map (fun q => if neg then -q else q)

/-- Models Python's int() on decimal text: an optional sign followed by at
least one digit. A minus sign is accepted, so the result can be negative.
Non-numeric text gives none, as int() raises ValueError. -/
def parsePyInt (s : String) : Option ℤ :=
  let (neg, body) := splitSign s.data
  if !body.isEmpty && body.all Char.isDigit then
    some (if neg then -(digitsToNat body : ℤ) else (digitsToNat body : ℤ))
  else none

/-- One item container (`.thumbnail` card), holding exactly what
PageScraper._parse_card reads from the DOM. `titleAttr` is the result of
looking up the `.title` sub-element (outer Option: element present?) and then
its `title` attribute (inner Option: attribute present?). The text fields are
the visible texts of the `.description`, `.price` and
`span[itemprop=reviewCount]` sub-elements, none when the sub-element is
absent. `starCount` is the number of `.ws-icon-star` sub-elements. -/
structure Card where
  titleAttr : Option (Option String)
  descriptionText : Option String
  priceText : Option String
  starCount : Nat
  reviewText : Option String
deriving DecidableEq

/-- Extraction failures: a required sub-element or attribute is absent, a
field's text cannot be parsed into its numeric type, or a bounded wait timed
out (Selenium's TimeoutException, raised by wait.until). -/
inductive ScrapeError where
  | missingField (field : String)
  | malformedField (field : String) (raw : String)
  | timeout
deriving DecidableEq

/-- The Product dataclass: the structured record, fields in declaration
order title, description, price, rating, num_of_reviews. -/
structure Product where
  title : String
  description : String
  price : ℚ
  rating : Nat
  num_of_reviews : ℤ
deriving DecidableEq

/-- PageScraper._parse_card: title from the title attribute of the `.title`
sub-element, stripped; description text stripped; price text stripped, all
dollar signs removed, parsed as a float; rating is the count of
`.ws-icon-star` sub-elements; num_of_reviews is the reviewCount text
stripped and parsed as an int. Field reads happen in source order, so the
first failing field determines the error. -/
def parseCard (card : Card) : Except ScrapeError Product :=
  match card.titleAttr with
  | none => .error (.missingField "title")
  | some none => .error (.missingField "title")
  | some (some t) =>
    match card.descriptionText with
    | none => .error (.missingField "description")
    | some d =>
      match card.priceText with
      | none => .error (.missingField "price")
      | some p =>
        match parsePyFloat (removeDollar (pyStrip p)) with
        | none => .error (.malformedField "price" (pyStrip p))
        | some price =>
          match card.reviewText with
          | none => .error (.missingField "reviewCount")
          | some r =>
            match parsePyInt (pyStrip r) with
            | none => .error (.malformedField "reviewCount" (pyStrip r))
            | some n =>
              .ok { title := pyStrip t, description := pyStrip d, price := price,
                    rating := card.starCount, num_of_reviews := n }

/-- PageScraper._parse_products: parse every `.thumbnail` card in DOM order.
The loop body has no per-item exception handling, so the first parse failure
propagates and aborts the batch. -/
def parseProducts : List Card → Except ScrapeError (List Product)
  | [] => .ok []
  | c :: cs =>
    match parseCard c with
    | .error e => .error e
    | .ok p =>
      match parseProducts cs with
      | .error e => .error e
      | .ok ps => .ok (p :: ps)

/-- The page surface as the loader observes it: `pending` is the sequence of
item batches the "more" button will still reveal, one batch per click
(`pending = []` means the button never again becomes clickable within the
wait, i.e. the listing is exhausted); `items` is the list of item containers
currently materialized in the DOM; `clicks` counts the click actions
performed on the surface. -/
structure Surface where
  pending : List (List Card)
  items : List Card
  clicks : Nat
deriving DecidableEq

/-- PageScraper._click_until_all_loaded: loop waiting for the `.btn-primary`
control to become clickable and JS-clicking it. When the bounded wait times
out (here: `pending = []`), the raised TimeoutException is caught by the bare
except and the loop breaks, returning the surface as is — so the only way
out of the loop is the caught-exception branch, and no error value is ever
produced despite the Except return type. -/
def clickUntilAllLoadedE (s : Surface) : Except ScrapeError Surface :=
  match h : s.pending with
  | [] => .ok s
  | batch :: rest =>
    clickUntilAllLoadedE
      { pending := rest, items := s.items ++ batch, clicks := s.clicks + 1 }
termination_by s.pending.length
decreasing_by simp [h]

/-- PageScraper.load_all_products: click until exhausted, then parse the
materialized product list. -/
def loadAllProducts (s : Surface) : Except ScrapeError (List Product) :=
  match clickUntilAllLoadedE s with
  | .error e => .error e
  | .ok s2 => parseProducts s2.items

/-- The header row ProductRepository.save writes: the Product dataclass
field names in declaration order. -/
def headerRow : List String :=
  ["title", "description", "price", "rating", "num_of_reviews"]

/-- Exponent of the largest power of p dividing n, with the cofactor left
after dividing that power out; fuel-bounded repeated division (fuel := n is
always enough since p ≥ 2). -/
def factorOut (p : Nat) : Nat → Nat → Nat × Nat
  | 0, n => (0, n)
  | fuel + 1, n =>
    if 2 ≤ p && n % p == 0 && n != 0 then
      let r := factorOut p fuel (n / p)
      (r.1 + 1, r.2)
    else (0, n)

/-- Pads a digit string with leading zeros up to width k. -/
def padZeros (s : String) (k : Nat) : String :=
  String.mk (List.replicate (k - s.length) '0') ++ s

/-- Plain-text rendering of the price for the CSV cell, as csv.writer's
str() prints a float: the exact decimal expansion with no trailing zeros
beyond the ".0" of an integral value ("100.0", "109.99", "-0.5"). A price
whose reduced denominator is 2^a * 5^b (every value a binary float can
take is such a dyadic rational, and every price parsed from decimal text
has a power-of-ten denominator) is printed with k = max a b fractional
digits, which is exactly the shortest decimal denoting the value; the
final fallback for other rationals is unreachable from parsed prices. -/
def renderPrice (q : ℚ) : String :=
  let den := q.den
  let f2 := factorOut 2 den den
  let f5 := factorOut 5 f2.2 f2.2
  if f5.2 = 1 then
    let k := max f2.1 f5.1
    if k = 0 then toString q.num ++ ".0"
    else
      let sign := if q.num < 0 then "-" else ""
      let m := q.num.natAbs * (10 ^ k / den)
      sign ++ toString (m / 10 ^ k) ++ "." ++ padZeros (toString (m % 10 ^ k)) k
  else toString q.num ++ "/" ++ toString q.den

/-- One CSV data row: the product's field values rendered as plain text, in
the order the save loop lists them. -/
def productRow (p : Product) : List String :=
  [p.title, p.description, renderPrice p.price, toString p.rating,
   toString p.num_of_reviews]

/-- ProductRepository.save, as the list of rows written to the CSV file:
the header row, then one row per product. -/
def saveRows (products : List Product) : List (List String) :=
  headerRow :: products.map productRow

instance exceptDecEq {ε α : Type} [DecidableEq ε] [DecidableEq α] :
    DecidableEq (Except ε α) := fun x y =>
  match x, y with
  | .error e, .error f =>
    if h : e = f then .isTrue (congrArg Except.error h)
    else .isFalse (fun hc => h (Except.error.inj hc))
  | .error _, .ok _ => .isFalse (fun hc => Except.noConfusion hc)
  | .ok _, .error _ => .isFalse (fun hc => Except.noConfusion hc)
  | .ok a, .ok b =>
    if h : a = b then .isTrue (congrArg Except.ok h)
    else .isFalse (fun hc => h (Except.ok.inj hc))

/-- An item container with every sub-element well formed, as on the live
site: a titled `.title` element, description and price texts with
surrounding whitespace, four star icons, and a numeric review count. -/
def goodCard : Card :=
  { titleAttr := some (some " Acer Aspire "),
    descriptionText := some " A compact laptop ",
    priceText := some " $100 ",
    starCount := 4,
    reviewText := some " 3 " }

/-- The well-formed card with no filled star markers. -/
def zeroStarCard : Card := { goodCard with starCount := 0 }

/-- The well-formed card with seven filled star markers, outside the
expected 0 to 5 range. -/
def sevenStarCard : Card := { goodCard with starCount := 7 }

/-- A card whose `.title` sub-element is absent. -/
def missingTitleCard : Card := { goodCard with titleAttr := none }

/-- A card whose price text is not numeric. -/
def freePriceCard : Card := { goodCard with priceText := some "free" }

/-- A card whose price text carries an interior currency symbol, so that
stripping only the leading symbol leaves non-numeric text. -/
def doubleDollarCard : Card := { goodCard with priceText := some "$1$0" }

/-- A card whose review-count text is a negative numeral. -/
def negReviewCard : Card := { goodCard with reviewText := some "-3" }

/-- A card whose review-count text is not numeric. -/
def badReviewCard : Card := { goodCard with reviewText := some "many" }

/-- The record extracted from goodCard. -/
def goodProduct : Product :=
  { title := "Acer Aspire", description := "A compact laptop",
    price := 100, rating := 4, num_of_reviews := 3 }

/-- The exact rational 109.99, in lowest terms. -/
def q10999 : ℚ := ⟨10999, 100, by norm_num, by norm_num⟩

/-- A record with a typical non-integral price, 109.99. -/
def decimalProduct : Product :=
  { title := "Asus VivoBook", description := "A thin laptop",
    price := q10999, rating := 3, num_of_reviews := 12 }

/-- C1: on a container whose sub-elements are well formed, the per-card
parse returns a record whose title and description are the
whitespace-trimmed source texts, whose price is the decimal parsed after
stripping the currency symbol, whose num_of_reviews is the parsed integer
of the review text, and whose rating is the number of filled star markers
in the container. -/
theorem parseCard_wellformed (card : Card) (t d p r : String) (pr : ℚ) (n : ℤ)
    (ht : card.titleAttr = some (some t))
    (hd : card.descriptionText = some d)
    (hp : card.priceText = some p)
    (hpr : parsePyFloat (removeDollar (pyStrip p)) = some pr)
    (hr : card.reviewText = some r)
    (hn : parsePyInt (pyStrip r) = some n) :
    parseCard card = .ok
      { title := pyStrip t, description := pyStrip d, price := pr,
        rating := card.starCount, num_of_reviews := n } := by
  simp [parseCard, ht, hd, hp, hpr, hr, hn]

/-- C1 witness: price text " $100 " gives price 100, review text " 3 "
gives count 3, the 4-marker card gives rating 4 and the 0-marker card
rating 0, with title and description trimmed. -/
theorem parseCard_wellformed_witness :
    parseCard goodCard = .ok goodProduct
    ∧ parseCard zeroStarCard = .ok
        { title := "Acer Aspire", description := "A compact laptop",
          price := 100, rating := 0, num_of_reviews := 3 } := by
  constructor
  · have h := parseCard_wellformed goodCard " Acer Aspire " " A compact laptop "
      " $100 " " 3 " 100 3 rfl rfl rfl (by decide) rfl (by decide)
    rw [h]; decide
  · have h := parseCard_wellformed zeroStarCard " Acer Aspire " " A compact laptop "
      " $100 " " 3 " 100 3 rfl rfl rfl (by decide) rfl (by decide)
    rw [h]; decide

/-- C10: the rating is never validated or clamped: whenever the other
fields parse, the per-card parse returns a record whose rating equals the
container's filled-marker count, whatever that count is, so a container
with more than 5 markers still yields a record rather than a failure. -/
theorem rating_no_upper_bound (card : Card) (t d p r : String) (pr : ℚ) (n : ℤ)
    (ht : card.titleAttr = some (some t))
    (hd : card.descriptionText = some d)
    (hp : card.priceText = some p)
    (hpr : parsePyFloat (removeDollar (pyStrip p)) = some pr)
    (hr : card.reviewText = some r)
    (hn : parsePyInt (pyStrip r) = some n) :
    ∃ prod, parseCard card = .ok prod ∧ prod.rating = card.starCount := by
  refine ⟨{ title := pyStrip t, description := pyStrip d, price := pr,
            rating := card.starCount, num_of_reviews := n }, ?_, rfl⟩
  simp [parseCard, ht, hd, hp, hpr, hr, hn]

/-- C10 witness: a container with 7 filled markers, outside the expected
0 to 5 range, still parses to a record, with rating 7. -/
theorem rating_no_upper_bound_witness :
    5 < sevenStarCard.starCount
    ∧ ∃ prod, parseCard sevenStarCard = .ok prod ∧ prod.rating = 7 := by
  refine ⟨by decide, ?_⟩
  obtain ⟨prod, h1, h2⟩ := rating_no_upper_bound sevenStarCard " Acer Aspire "
    " A compact laptop " " $100 " " 3 " 100 3 rfl rfl rfl (by decide) rfl (by decide)
  exact ⟨prod, h1, by rw [h2]; decide⟩

/-- C6: the title comes from the title attribute of the `.title`
sub-element, trimmed — every successful parse carries the trimmed attribute
value as its title — and when the sub-element or the attribute is absent
the parse fails with a missing-field error on the title. -/
theorem title_from_attribute (card : Card) :
    ((card.titleAttr = none ∨ card.titleAttr = some none) →
      parseCard card = .error (.missingField "title"))
    ∧ (∀ prod, parseCard card = .ok prod →
        ∃ t, card.titleAttr = some (some t) ∧ prod.title = pyStrip t) := by
  constructor
  · rintro (h | h) <;> simp [parseCard, h]
  · intro prod hok
    rcases hta : card.titleAttr with _ | ta
    · simp [parseCard, hta] at hok
    · rcases ta with _ | t
      · simp [parseCard, hta] at hok
      · refine ⟨t, rfl, ?_⟩
        rcases hd : card.descriptionText with _ | d
        · simp [parseCard, hta, hd] at hok
        · rcases hp : card.priceText with _ | p
          · simp [parseCard, hta, hd, hp] at hok
          · rcases hpr : parsePyFloat (removeDollar (pyStrip p)) with _ | pr
            · simp [parseCard, hta, hd, hp, hpr] at hok
            · rcases hr : card.reviewText with _ | r
              · simp [parseCard, hta, hd, hp, hpr, hr] at hok
              · rcases hn : parsePyInt (pyStrip r) with _ | n
                · simp [parseCard, hta, hd, hp, hpr, hr, hn] at hok
                · simp [parseCard, hta, hd, hp, hpr, hr, hn] at hok
                  rw [← hok]

/-- C6 witness: a card with no `.title` sub-element fails with the
missing-field error on the title. -/
theorem title_from_attribute_witness :
    parseCard missingTitleCard = .error (.missingField "title") :=
  (title_from_attribute missingTitleCard).1 (Or.inl rfl)

/-- C7 counterexample: the review-count parse accepts a signed numeral, so
the card whose review text is "-3" yields a record carrying the negative
review count -3 — refuting the claim that no returned record ever carries
a negative review count. -/
theorem reviewCount_negative_counterexample :
    parseCard negReviewCard = .ok
      { title := "Acer Aspire", description := "A compact laptop",
        price := 100, rating := 4, num_of_reviews := -3 }
    ∧ (-3 : ℤ) < 0 := by
  constructor
  · decide
  · decide

/-- C7 amended: the review count is the trimmed review text parsed as a
signed integer — non-numeric text fails with a malformed-field error, and
a numeral parse (negative numerals included) becomes the record's
num_of_reviews unchanged. -/
theorem reviewCount_signed_parse (card : Card) (t d p r : String) (pr : ℚ)
    (ht : card.titleAttr = some (some t))
    (hd : card.descriptionText = some d)
    (hp : card.priceText = some p)
    (hpr : parsePyFloat (removeDollar (pyStrip p)) = some pr)
    (hr : card.reviewText = some r) :
    (∀ n, parsePyInt (pyStrip r) = some n →
      parseCard card = .ok
        { title := pyStrip t, description := pyStrip d, price := pr,
          rating := card.starCount, num_of_reviews := n })
    ∧ (parsePyInt (pyStrip r) = none →
      parseCard card = .error (.malformedField "reviewCount" (pyStrip r))) := by
  constructor
  · intro n hn; simp [parseCard, ht, hd, hp, hpr, hr, hn]
  · intro hn; simp [parseCard, ht, hd, hp, hpr, hr, hn]

/-- C7 amended witness: the non-numeric review text "many" fails with the
malformed-field error on the review count. -/
theorem reviewCount_signed_parse_witness :
    parseCard badReviewCard = .error (.malformedField "reviewCount" "many") := by
  have h := (reviewCount_signed_parse badReviewCard " Acer Aspire "
    " A compact laptop " " $100 " "many" 100 rfl rfl rfl (by decide) rfl).2 (by decide)
  rw [h]; decide

/-- C5 counterexample: the source removes every occurrence of the currency
symbol, not only a leading one. For the price text "$1$0", stripping only
the leading symbol leaves "1$0", which is not numeric, yet the per-card
parse succeeds with price 10 instead of failing with a malformed-price
error — refuting the claim as stated. -/
theorem price_malformed_counterexample :
    stripLeadingDollar (pyStrip "$1$0") = "1$0"
    ∧ parsePyFloat "1$0" = none
    ∧ parseCard doubleDollarCard = .ok
      { title := "Acer Aspire", description := "A compact laptop",
        price := 10, rating := 4, num_of_reviews := 3 } := by
  refine ⟨by decide, by decide, by decide⟩

/-- C5 amended: for every container whose price text is not numeric after
removing all occurrences of the currency symbol (e.g. "free"), the
per-card parse fails with a malformed-field error on the price and never
returns a record with a defaulted price. -/
theorem price_malformed (card : Card) (t d p : String)
    (ht : card.titleAttr = some (some t))
    (hd : card.descriptionText = some d)
    (hp : card.priceText = some p)
    (hbad : parsePyFloat (removeDollar (pyStrip p)) = none) :
    parseCard card = .error (.malformedField "price" (pyStrip p)) := by
  simp [parseCard, ht, hd, hp, hbad]

/-- C5 amended witness: the non-numeric price text "free" fails with the
malformed-field error on the price. -/
theorem price_malformed_witness :
    parseCard freePriceCard = .error (.malformedField "price" "free") := by
  have h := price_malformed freePriceCard " Acer Aspire " " A compact laptop "
    "free" rfl rfl rfl (by decide)
  rw [h]; decide

/-- C2 counterexample: the batch parse has no per-item isolation. With a
first container whose title is missing and a second that parses fine on
its own, the batch aborts with the first container's error and the second
container's record is not produced — refuting the claim that one
container's failure does not abort the batch. -/
theorem batch_abort_counterexample :
    parseCard goodCard = .ok goodProduct
    ∧ parseProducts [missingTitleCard, goodCard] = .error (.missingField "title") := by
  refine ⟨by decide, by decide⟩

/-- C2 amended: an extraction failure on one container aborts the whole
batch — the first per-item failure propagates to the caller unchanged and
the remaining containers are not processed. -/
theorem first_failure_aborts (c : Card) (cs : List Card) (e : ScrapeError)
    (h : parseCard c = .error e) :
    parseProducts (c :: cs) = .error e := by
  simp [parseProducts, h]

/-- C2 amended witness: the missing-title failure of the first container
is the whole batch's result, with a parseable container behind it. -/
theorem first_failure_aborts_witness :
    parseProducts (missingTitleCard :: [goodCard]) = .error (.missingField "title") :=
  first_failure_aborts missingTitleCard [goodCard] (.missingField "title") (by decide)

/-- C4: the batch parse preserves DOM encounter order: containers in order
A, B, C whose parses succeed give exactly the list of the three records in
the same order, one record per container, with nothing reordered, dropped
or duplicated. -/
theorem parse_preserves_order (A B C : Card) (ra rb rc : Product)
    (ha : parseCard A = .ok ra) (hb : parseCard B = .ok rb)
    (hc : parseCard C = .ok rc) :
    parseProducts [A, B, C] = .ok [ra, rb, rc] := by
  simp [parseProducts, ha, hb, hc]

/-- C4 witness: three concrete containers in order yield their three
records in the same order. -/
theorem parse_preserves_order_witness :
    parseProducts [goodCard, zeroStarCard, sevenStarCard] = .ok
      [goodProduct,
       { title := "Acer Aspire", description := "A compact laptop",
         price := 100, rating := 0, num_of_reviews := 3 },
       { title := "Acer Aspire", description := "A compact laptop",
         price := 100, rating := 7, num_of_reviews := 3 }] :=
  parse_preserves_order goodCard zeroStarCard sevenStarCard _ _ _
    (by decide) (by decide) (by decide)

theorem clickE_exhausted (s : Surface) (hs : s.pending = []) :
    clickUntilAllLoadedE s = .ok s := by
  rw [clickUntilAllLoadedE]
  split
  · rfl
  · rename_i batch rest h
    rw [hs] at h
    cases h

theorem clickE_step (s : Surface) (batch : List Card) (rest : List (List Card))
    (hs : s.pending = batch :: rest) :
    clickUntilAllLoadedE s =
      clickUntilAllLoadedE
        { pending := rest, items := s.items ++ batch, clicks := s.clicks + 1 } := by
  rw [clickUntilAllLoadedE]
  split
  · rename_i h; rw [hs] at h; cases h
  · rename_i batch2 rest2 h
    rw [hs] at h
    injection h with h1 h2
    subst h1; subst h2
    rfl

theorem clickE_total : ∀ (l : List (List Card)) (s : Surface), s.pending = l →
    ∃ s2, clickUntilAllLoadedE s = Except.ok s2 ∧ s2.pending = [] := by
  intro l
  induction l with
  | nil =>
    intro s hs
    exact ⟨s, clickE_exhausted s hs, hs⟩
  | cons b rest ih =>
    intro s hs
    obtain ⟨s2, h1, h2⟩ :=
      ih { pending := rest, items := s.items ++ b, clicks := s.clicks + 1 } rfl
    exact ⟨s2, (clickE_step s b rest hs).trans h1, h2⟩

/-- C3: the reveal-more loop never fails. On every surface — including one
whose control never becomes actionable, so the very first bounded wait
times out — the loop returns normally with the listing exhausted: the
result is an ok value whose pending reveals are empty, and no error value
(no escaped exception) is ever produced; the loop has no safety cap that
could fail it. -/
theorem exhaust_never_fails (s : Surface) :
    ∃ s2, clickUntilAllLoadedE s = Except.ok s2 ∧ s2.pending = [] :=
  clickE_total s.pending s rfl

/-- C8: the reveal-more loop is idempotent on an exhausted surface: when
the control never again becomes actionable (no pending reveals), the loop
returns the surface exactly as it was — the click counter, the
materialized items and the pending reveals are all unchanged, so no click
action was performed and the page state is untouched. -/
theorem exhaust_idempotent (s : Surface) (h : s.pending = []) :
    clickUntilAllLoadedE s = Except.ok s :=
  clickE_exhausted s h

/-- C8 witness: a concrete exhausted surface holding one card after two
earlier clicks is returned unchanged. -/
theorem exhaust_idempotent_witness :
    clickUntilAllLoadedE { pending := [], items := [goodCard], clicks := 2 } =
      Except.ok { pending := [], items := [goodCard], clicks := 2 } :=
  exhaust_idempotent { pending := [], items := [goodCard], clicks := 2 } rfl

/-- C9: the persisted output is the header row naming the five record
fields in declaration order — title, description, price, rating, then the
review-count field — followed by exactly one row per record, in record
order, each row rendering the field values as plain text in that same
field order. -/
theorem saveRows_format (ps : List Product) :
    (saveRows ps).length = ps.length + 1
    ∧ (saveRows ps).get? 0 =
        some ["title", "description", "price", "rating", "num_of_reviews"]
    ∧ ∀ i p, ps.get? i = some p →
        (saveRows ps).get? (i + 1) =
          some [p.title, p.description, renderPrice p.price, toString p.rating,
                toString p.num_of_reviews] := by
  refine ⟨by simp [saveRows], rfl, ?_⟩
  intro i p hp
  rw [List.get?_eq_getElem?] at hp
  simp [saveRows, List.getElem?_map, hp, productRow]

/-- C9 witness: saving two records writes their values after the header in
record order, rendered as plain text in field order — the integral price
as "100.0" and the non-integral price as its decimal text "109.99", as
str() prints the floats. -/
theorem saveRows_format_witness :
    (saveRows [goodProduct, decimalProduct]).get? 1 =
      some ["Acer Aspire", "A compact laptop", "100.0", "4", "3"]
    ∧ (saveRows [goodProduct, decimalProduct]).get? 2 =
      some ["Asus VivoBook", "A thin laptop", "109.99", "3", "12"] :=
  ⟨((saveRows_format [goodProduct, decimalProduct]).2.2 0 goodProduct rfl).trans
      (by decide),
   ((saveRows_format [goodProduct, decimalProduct]).2.2 1 decimalProduct rfl).trans
      (by decide)⟩

end Scrape
